import Mathlib

/-!
Verification development for the prescriber-analytics MCP server
(`server.py`, `api.py`).  The definitions below are a shallow embedding of
the Python source: pure helpers become Lean functions, the database adapter
becomes an explicit oracle argument (`execute_query` either returns typed
rows or fails with a message), and Python exceptions become `Except`.
All machine numerics are modelled with `Nat`/`Int`/`Rat`.
-/

/-! ### Decimal digit rendering (models Python `str` on integers) -/

/-- The character for a single decimal digit (digits are always `< 10`). -/
def digitChar (d : Nat) : Char :=
  match d with
  | 0 => '0' | 1 => '1' | 2 => '2' | 3 => '3' | 4 => '4'
  | 5 => '5' | 6 => '6' | 7 => '7' | 8 => '8' | _ => '9'

/-- Fuel-based decimal digit expansion, most significant digit first. -/
def natDigitsAux : Nat → Nat → List Char
  | 0, _ => []
  | fuel + 1, n => if n < 10 then [digitChar n] else natDigitsAux fuel (n / 10) ++ [digitChar (n % 10)]

/-- Decimal digits of a natural number, as Python's `str` renders them. -/
def natDigits (n : Nat) : List Char := natDigitsAux (n + 1) n

/-- Python `str` of a natural number. -/
def natRepr (n : Nat) : String := String.mk (natDigits n)

/-- Python `str` of an `int`. -/
def pyStr (i : Int) : String := (if i < 0 then "-" else "") ++ natRepr i.natAbs

/-! ### Thousands grouping and fixed-point rendering
(models the subset of Python's format mini-language used by the call
sites: `''`, `','`, `'.1f'`, `'.2f'`, `',.2f'`). -/

/-- Insert `','` before every further block of three characters of a
reversed digit string (`k` counts the characters still allowed before the
next separator); reversing the result groups digits in threes from the
right, as Python's `','` format option does. -/
def revGroupAux : Nat → List Char → List Char
  | _, [] => []
  | 0, c :: rest => ',' :: c :: revGroupAux 2 rest
  | k + 1, c :: rest => c :: revGroupAux k rest

/-- Group the digits of an integer part in threes with `','`. -/
def groupDigits (ds : List Char) : List Char := (revGroupAux 3 ds.reverse).reverse

/-- Left-pad a digit string with `'0'` to a given width. -/
def padZeros (p : Nat) (ds : List Char) : List Char := List.replicate (p - ds.length) '0' ++ ds

/-- `|q| * 10 ^ prec` rounded to the nearest natural number, ties to even —
the rounding Python applies when formatting exact decimal values with
`'f'`.  Computed on the numerator/denominator directly: for `a / b`
(`a = |num| * 10 ^ prec`, `b = den`) the integer part is `a / b` and the
tie comparison is `2 * (a % b)` against `b`. -/
def roundHalfEvenScaled (q : Rat) (prec : Nat) : Nat :=
  let a := q.num.natAbs * 10 ^ prec
  let b := q.den
  let n := a / b
  let r := a % b
  if 2 * r < b then n
  else if b < 2 * r then n + 1
  else if n % 2 = 0 then n else n + 1

/-- Fixed-point rendering with `prec` digits after the point and optional
thousands grouping of the integer part: Python's `'f'` presentation
(round half to even; the sign of the input is kept even when the
magnitude rounds to zero, as Python does). -/
def formatFixed (q : Rat) (prec : Nat) (comma : Bool) : String :=
  let m := roundHalfEvenScaled q prec
  let ip := m / 10 ^ prec
  let fp := m % 10 ^ prec
  (if q.num < 0 then "-" else "") ++
    (if comma then String.mk (groupDigits (natDigits ip)) else String.mk (natDigits ip)) ++
    (if prec = 0 then "" else "." ++ String.mk (padZeros prec (natDigits fp)))

/-! ### Numeric values and format specs -/

/-- A numeric value flowing out of the query layer: either an integral
aggregate (`COUNT`, integer `SUM`) or an exact decimal (money sums and the
`* 1.0 / NULLIF(...)` ratios), modelled as a rational. -/
inductive NumVal where
  | int (n : Int)
  | dec (q : Rat)
deriving DecidableEq

/-- View a numeric value as a rational. -/
def NumVal.toRat : NumVal → Rat
  | .int n => (n : Rat)
  | .dec q => q

/-- The parsed shape of the format specs the report builders use:
optional `','` grouping, optional `.prec`, optional `'f'` type. -/
structure FSpec where
  comma : Bool
  precision : Option Nat
  fixed : Bool
deriving DecidableEq

/-- Number of fractional digits in the exact decimal expansion of `q`
(capped at 28, the default decimal context); used to model Python's
default rendering of exact decimal values.  `q * 10 ^ k` is integral
exactly when the (reduced) denominator divides `10 ^ k`. -/
def decExpPlaces (q : Rat) : Nat :=
  (((List.range 29).find? fun k => 10 ^ k % q.den == 0).getD 28)

/-- Render an integer under an optional-grouping plain spec (Python
`format(n, '')` / `format(n, ',')`). -/
def intFmt (n : Int) (comma : Bool) : String :=
  (if n < 0 then "-" else "") ++
    (if comma then String.mk (groupDigits (natDigits n.natAbs)) else natRepr n.natAbs)

/-- Apply a parsed format spec to a numeric value.  The `(.int, some p,
no-f)` and `(.dec, some p, no-f)` corners are modelled by the fixed-point
rendering; no report builder call site reaches them. -/
def fmtValue (v : NumVal) (fs : FSpec) : String :=
  if fs.fixed then formatFixed v.toRat (fs.precision.getD 6) fs.comma
  else
    match v, fs.precision with
    | .int n, none => intFmt n fs.comma
    | .int n, some p => formatFixed (n : Rat) p fs.comma
    | .dec q, none => formatFixed q (decExpPlaces q) fs.comma
    | .dec q, some p => formatFixed q p fs.comma

/-- `format_number` after default substitution: if the value is null the
default is formatted in its place. -/
def fmtN (value : Option NumVal) (fs : FSpec) (default : NumVal) : String :=
  fmtValue (value.getD default) fs

/-- Parse a format-spec string of the shape `[',']['.'digits]['f']`;
anything else is rejected (Python raises for the specs outside the
mini-language; the call sites only use specs in this subset). -/
def parseSpec (s : String) : Option FSpec :=
  let (comma, r1) : Bool × List Char :=
    match s.data with
    | ',' :: r => (true, r)
    | l => (false, l)
  match r1 with
  | '.' :: rest =>
    let ds := rest.takeWhile Char.isDigit
    if ds.isEmpty then none
    else
      let p := ds.foldl (fun a c => a * 10 + (c.toNat - 48)) 0
      match rest.dropWhile Char.isDigit with
      | [] => some ⟨comma, some p, false⟩
      | ['f'] => some ⟨comma, some p, true⟩
      | _ => none
  | [] => some ⟨comma, none, false⟩
  | ['f'] => some ⟨comma, none, true⟩
  | _ => none

/-- `format_number(value, format_spec, default=0)` from `server.py`:
substitutes `default` for a null value and formats it under
`format_spec`; an invalid spec raises (modelled as `Except.error`). -/
def format_number (value : Option NumVal) (format_spec : String) (default : NumVal) :
    Except String String :=
  match parseSpec format_spec with
  | some fs => .ok (fmtN value fs default)
  | none => .error "Invalid format specifier"

example : fmtValue (.int 0) ⟨false, some 2, true⟩ = "0.00" := by decide
example : fmtValue (.int 1234567) ⟨true, none, false⟩ = "1,234,567" := by decide
example : fmtValue (.dec (mkRat 25 2)) ⟨true, some 2, true⟩ = "12.50" := by decide
example : fmtValue (.int (-1234)) ⟨true, none, false⟩ = "-1,234" := by decide
example : fmtValue (.dec (mkRat 1 8)) ⟨false, some 1, true⟩ = "0.1" := by decide
example : fmtValue (.dec (mkRat 1 8)) ⟨false, none, false⟩ = "0.125" := by decide
example : fmtValue (.dec (mkRat 9999995 100)) ⟨true, some 1, true⟩ = "100,000.0" := by decide
example : format_number none ".2f" (.int 0) = .ok "0.00" := rfl
example : format_number (some (.dec (mkRat 3 2))) ",.2f" (.int 0) = .ok "1.50" := rfl

/-! ### String utilities -/

/-- Python's `"\n".join(...)`. -/
def joinNl : List String → String
  | [] => ""
  | [s] => s
  | s :: rest => s ++ "\n" ++ joinNl rest

/-- Number of newline characters in a string. -/
def countNL (s : String) : Nat := s.data.count '\n'

/-- Number of lines of a string in Python's `splitlines` sense: a final
newline terminates the last line rather than opening an empty one. -/
def pyNumLines (s : String) : Nat :=
  if s.data.getLast? = some '\n' then countNL s
  else if s.data = [] then 0
  else countNL s + 1

/-- `pat` is a prefix of `s` (boolean, on character lists). -/
def isPrefixB : List Char → List Char → Bool
  | [], _ => true
  | _ :: _, [] => false
  | a :: as, b :: bs => a == b && isPrefixB as bs

/-- `pat` occurs as a contiguous substring of `s` (boolean). -/
def hasSubB : List Char → List Char → Bool
  | pat, [] => isPrefixB pat []
  | pat, s@(_ :: rest) => isPrefixB pat s || hasSubB pat rest

example : pyNumLines "" = 0 := by decide
example : pyNumLines "header\n" = 1 := by decide
example : pyNumLines "header\na\nb" = 3 := by decide
example : hasSubB "TOP".data "SELECT TOP (?)".data = true := by decide
example : hasSubB "TIP".data "SELECT TOP (?)".data = false := by decide

/-! ### Configuration (`AzureSQLConnection._setup_connection`) -/

/-- Python truthiness of an optional environment string: `None` and the
empty string are falsy. -/
def truthy : Option String → Bool
  | none => false
  | some s => !(s == "")

/-- The connection parameters kept by `AzureSQLConnection` after a
successful `_setup_connection`. -/
structure DbConfig where
  server : String
  database : String
  table : String
  connection_string : String

/-- `AzureSQLConnection._setup_connection`: reads the three required
settings and raises `ValueError("Required environment variables are not
set")` when `all([...])` fails, i.e. when any is missing or empty. -/
def setup_connection (server database table : Option String) : Except String DbConfig :=
  if truthy server && truthy database && truthy table then
    .ok { server := server.getD "", database := database.getD "", table := table.getD "",
          connection_string :=
            "DRIVER=\x7bODBC Driver 18 for SQL Server\x7d;SERVER=" ++ server.getD "" ++
              ";DATABASE=" ++ database.getD "" ++ ";Encrypt=yes" }
  else
    .error "Required environment variables are not set"

/-! ### Access-token packing (`AzureSQLConnection._pack_token`) -/

/-- UTF-8 encoding of a single unicode scalar value, as Python's
`str.encode("utf-8")` produces it (byte values as naturals). -/
def utf8EncodeChar (c : Char) : List Nat :=
  let v := c.toNat
  if v < 128 then [v]
  else if v < 2048 then [192 + v / 64, 128 + v % 64]
  else if v < 65536 then [224 + v / 4096, 128 + v / 64 % 64, 128 + v % 64]
  else [240 + v / 262144, 128 + v / 4096 % 64, 128 + v / 64 % 64, 128 + v % 64]

/-- UTF-8 bytes of a character sequence. -/
def utf8Bytes : List Char → List Nat
  | [] => []
  | c :: rest => utf8EncodeChar c ++ utf8Bytes rest

/-- The loop body of `_pack_token`: each UTF-8 byte (`bytes({i})`)
followed by one zero byte (`bytes(1)`). -/
def tdsBytes : List Nat → List Nat
  | [] => []
  | i :: rest => i :: 0 :: tdsBytes rest

/-- Four little-endian bytes of `v % 2^32` (byte order of the supported
x86-64/ARM64 platforms, i.e. `struct`'s native order). -/
def le4 (v : Nat) : List Nat :=
  [v % 256, v / 256 % 256, v / 65536 % 256, v / 16777216 % 256]

/-- `struct.pack("=i", v)`: four native-endian bytes of a signed 32-bit
integer; values outside the signed 32-bit range raise `struct.error`. -/
def structPackEqI (v : Int) : Except String (List Nat) :=
  if -2147483648 ≤ v ∧ v ≤ 2147483647 then .ok (le4 (v % 4294967296).toNat)
  else .error "argument out of range"

/-- `AzureSQLConnection._pack_token`: the zero-interleaved UTF-8 bytes of
the token, prefixed by `struct.pack("=i", len(bytes_str))`. -/
def pack_token (token : String) : Except String (List Nat) :=
  let bytes_str := tdsBytes (utf8Bytes token.data)
  (structPackEqI (bytes_str.length : Int)).map (· ++ bytes_str)

/-- Decode four little-endian bytes as an unsigned 32-bit value. -/
def decodeU32 (l : List Nat) : Nat :=
  match l with
  | [b0, b1, b2, b3] => b0 + 256 * b1 + 65536 * b2 + 16777216 * b3
  | _ => 0

/-- Decode four little-endian bytes as a signed (two's-complement) 32-bit
value. -/
def decodeI32 (l : List Nat) : Int :=
  let u := decodeU32 l
  if u < 2147483648 then (u : Int) else (u : Int) - 4294967296

example : pack_token "ab" = .ok [4, 0, 0, 0, 97, 0, 98, 0] := rfl
example : decodeI32 (le4 4) = 4 := by decide

/-! ### Report rows (typed views of the cursor tuples, one per query) -/

/-- A row of the top-prescribers query (`row[0] .. row[6]`). -/
structure PrescriberRow where
  fullName : String
  city : String
  state : String
  ptype : String
  totalClaims : Int
  totalCost : Rat
  uniqueBrands : Int

/-- A row of the top-states query (`row[0] .. row[7]`); the three
`NULLIF`-guarded ratios are nullable. -/
structure StateRow where
  state : String
  uniquePrescribers : Int
  totalClaims : Int
  totalCost : Rat
  totalBenes : Int
  costPerClaim : Option Rat
  claimsPerPrescriber : Option Rat
  costPerPrescriber : Option Rat

/-- A row of the prescriber-types query (`row[0] .. row[9]`); every
numeric column is rendered through `format_number`, so all are modelled
nullable. -/
structure TypesRow where
  ptype : String
  uniquePrescribers : Option Int
  totalClaims : Option Int
  totalCost : Option Rat
  totalBenes : Option Int
  costPerClaim : Option Rat
  claimsPerPrescriber : Option Rat
  costPerPrescriber : Option Rat
  uniqueBrands : Option Int
  avgDaysPerClaim : Option Rat

/-! ### Query texts (the f-string literals of `server.py`, with the table
name spliced in where `{db.table}` appears) -/

/-- Query of `get_schema_info`. -/
def schemaQuery : String :=
  "SELECT column_name, data_type FROM INFORMATION_SCHEMA.COLUMNS WHERE table_name = ?"

/-- Query of `get_top_prescribers`. -/
def topPrescribersQuery (table : String) : String :=
  "\n                SELECT TOP (?)\n                    [Prscrbr_Full_Name],\n                    [Prscrbr_City],\n                    [Prscrbr_State_Abrvtn],\n                    [Prscrbr_Type],\n                    SUM([Tot_Clms]) as Total_Claims,\n                    SUM([Tot_Drug_Cst]) as Total_Cost,\n                    COUNT(DISTINCT [Brnd_Name]) as Unique_Brands\n                FROM [dbo].["
    ++ table ++
  "]\n                GROUP BY [Prscrbr_Full_Name], [Prscrbr_City], [Prscrbr_State_Abrvtn], [Prscrbr_Type]\n                ORDER BY Total_Claims DESC;\n            "

/-- Query of `get_top_states`. -/
def topStatesQuery (table : String) : String :=
  "\n                SELECT TOP (?)\n                    [Prscrbr_State_Abrvtn] as State,\n                    COUNT(DISTINCT [Prscrbr_Full_Name]) as Unique_Prescribers,\n                    SUM([Tot_Clms]) as Total_Claims,\n                    SUM([Tot_Drug_Cst]) as Total_Cost,\n                    SUM([Tot_Benes]) as Total_Beneficiary_Events,\n                    SUM([Tot_Drug_Cst]) * 1.0 / NULLIF(SUM([Tot_Clms]), 0) as Cost_Per_Claim,\n                    SUM([Tot_Clms]) * 1.0 / NULLIF(COUNT(DISTINCT [Prscrbr_Full_Name]), 0) as Claims_Per_Prescriber,\n                    SUM([Tot_Drug_Cst]) * 1.0 / NULLIF(COUNT(DISTINCT [Prscrbr_Full_Name]), 0) as Cost_Per_Prescriber\n                FROM [dbo].["
    ++ table ++
  "]\n                GROUP BY [Prscrbr_State_Abrvtn]\n                ORDER BY Total_Claims DESC;\n            "

/-- Query of `get_prescriber_types_summary`. -/
def typesQuery (table : String) : String :=
  "\n                SELECT \n                    [Prscrbr_Type],\n                    COUNT(DISTINCT [Prscrbr_Full_Name]) as Unique_Prescribers,\n                    SUM([Tot_Clms]) as Total_Claims,\n                    SUM([Tot_Drug_Cst]) as Total_Cost,\n                    SUM([Tot_Benes]) as Total_Beneficiary_Events,\n                    SUM([Tot_Drug_Cst]) * 1.0 / NULLIF(SUM([Tot_Clms]), 0) as Cost_Per_Claim,\n                    SUM([Tot_Clms]) * 1.0 / NULLIF(COUNT(DISTINCT [Prscrbr_Full_Name]), 0) as Claims_Per_Prescriber,\n                    SUM([Tot_Drug_Cst]) * 1.0 / NULLIF(COUNT(DISTINCT [Prscrbr_Full_Name]), 0) as Cost_Per_Prescriber,\n                    COUNT(DISTINCT [Brnd_Name]) as Unique_Brands,\n                    SUM([Tot_Day_Suply]) * 1.0 / NULLIF(SUM([Tot_Clms]), 0) as Avg_Days_Per_Claim\n                FROM [dbo].["
    ++ table ++
  "]\n                GROUP BY [Prscrbr_Type]\n                ORDER BY Total_Claims DESC;\n            "

/-! ### Per-row templates (the f-strings of the `"\n".join(...)` calls).
The format specs that appear literally at the call sites: -/

/-- Spec `''`. -/
def fsPlain : FSpec := ⟨false, none, false⟩
/-- Spec `','`. -/
def fsComma : FSpec := ⟨true, none, false⟩
/-- Spec `'.1f'`. -/
def fsF1 : FSpec := ⟨false, some 1, true⟩
/-- Spec `'.2f'`. -/
def fsF2 : FSpec := ⟨false, some 2, true⟩
/-- Spec `',.2f'`. -/
def fsCommaF2 : FSpec := ⟨true, some 2, true⟩

theorem parseSpec_plain : parseSpec "" = some fsPlain := rfl
theorem parseSpec_comma : parseSpec "," = some fsComma := rfl
theorem parseSpec_f1 : parseSpec ".1f" = some fsF1 := rfl
theorem parseSpec_f2 : parseSpec ".2f" = some fsF2 := rfl
theorem parseSpec_commaF2 : parseSpec ",.2f" = some fsCommaF2 := rfl

/-- Row template of `get_top_prescribers`. -/
def renderPrescriberRow (r : PrescriberRow) : String :=
  r.fullName ++ " (" ++ r.ptype ++ ") - " ++ r.city ++ ", " ++ r.state ++ " - " ++
    fmtValue (.int r.totalClaims) fsComma ++ " claims, $" ++
    fmtValue (.dec r.totalCost) fsCommaF2 ++ " total cost, " ++
    pyStr r.uniqueBrands ++ " unique brands"

/-- Row template of `get_top_states` (three output lines per row). -/
def renderStateRow (r : StateRow) : String :=
  r.state ++ " - " ++ fmtValue (.int r.uniquePrescribers) fsComma ++ " prescribers, " ++
    fmtValue (.int r.totalClaims) fsComma ++ " claims, $" ++
    fmtValue (.dec r.totalCost) fsCommaF2 ++ " total cost\n" ++
    "    Cost per claim: $" ++ fmtN (r.costPerClaim.map NumVal.dec) fsF2 (.int 0) ++ ", " ++
    "Claims per prescriber: " ++ fmtN (r.claimsPerPrescriber.map NumVal.dec) fsF1 (.int 0) ++ ", " ++
    "Cost per prescriber: $" ++ fmtN (r.costPerPrescriber.map NumVal.dec) fsCommaF2 (.int 0) ++ "\n" ++
    "    Total beneficiary events: " ++ fmtValue (.int r.totalBenes) fsComma ++
    " (Note: May include repeat visits)"

/-- Row template of `get_prescriber_types_summary` (four output lines per
row; every number goes through `format_number` with default `0`). -/
def renderTypesRow (r : TypesRow) : String :=
  r.ptype ++ ": " ++ fmtN (r.uniquePrescribers.map NumVal.int) fsComma (.int 0) ++ " prescribers, " ++
    fmtN (r.totalClaims.map NumVal.int) fsComma (.int 0) ++ " claims, $" ++
    fmtN (r.totalCost.map NumVal.dec) fsCommaF2 (.int 0) ++ " total cost\n" ++
    "    Cost per claim: $" ++ fmtN (r.costPerClaim.map NumVal.dec) fsF2 (.int 0) ++ ", " ++
    "Claims per prescriber: " ++ fmtN (r.claimsPerPrescriber.map NumVal.dec) fsF1 (.int 0) ++ ", " ++
    "Cost per prescriber: $" ++ fmtN (r.costPerPrescriber.map NumVal.dec) fsCommaF2 (.int 0) ++ "\n" ++
    "    " ++ fmtN (r.uniqueBrands.map NumVal.int) fsPlain (.int 0) ++ " unique brands prescribed, " ++
    fmtN (r.avgDaysPerClaim.map NumVal.dec) fsF1 (.int 0) ++ " days supply per claim\n" ++
    "    Total beneficiary events: " ++ fmtN (r.totalBenes.map NumVal.int) fsComma (.int 0) ++
    " (Note: May include repeat visits)"

/-! ### Report builders.  Each takes its `execute_query` oracle (the
database adapter either returns the typed rows of its query or fails with
a message) plus the configured table name; the whole body sits in a
`try/except` that converts any query failure into an error string. -/

/-- `get_schema_info` from `server.py`. -/
def get_schema_info (dbq : String → List String → Except String (List (String × String)))
    (table : String) : String :=
  match dbq schemaQuery [table] with
  | .ok results => "Schema:\n" ++ joinNl (results.map fun col => col.1 ++ ": " ++ col.2)
  | .error e => "Error retrieving schema: " ++ e

/-- The success-path output of `get_top_prescribers`. -/
def topPrescribersReport (top : Int) (rows : List PrescriberRow) : String :=
  "Returning top " ++ pyStr top ++ " prescribers by total claims:\n" ++
    joinNl (rows.map renderPrescriberRow)

/-- `get_top_prescribers` from `server.py`. -/
def get_top_prescribers (dbq : String → List Int → Except String (List PrescriberRow))
    (table : String) (top : Int) : String :=
  match dbq (topPrescribersQuery table) [top] with
  | .ok rows => topPrescribersReport top rows
  | .error e => "Error retrieving top prescribers: " ++ e

/-- The success-path output of `get_top_states`. -/
def topStatesReport (top : Int) (rows : List StateRow) : String :=
  "Returning top " ++ pyStr top ++ " states by total claims:\n" ++
    joinNl (rows.map renderStateRow)

/-- `get_top_states` from `server.py`. -/
def get_top_states (dbq : String → List Int → Except String (List StateRow))
    (table : String) (top : Int) : String :=
  match dbq (topStatesQuery table) [top] with
  | .ok rows => topStatesReport top rows
  | .error e => "Error retrieving top states: " ++ e

/-- `get_prescriber_types_summary` from `server.py` (its query takes no
parameters). -/
def get_prescriber_types_summary (dbq : String → Except String (List TypesRow))
    (table : String) : String :=
  match dbq (typesQuery table) with
  | .ok rows => "Summary of prescriber types:\n" ++ joinNl (rows.map renderTypesRow)
  | .error e => "Error retrieving prescriber types summary: " ++ e

/-! ### Query-layer semantics for the prescriber-types aggregates.
One group of the `GROUP BY [Prscrbr_Type]` query is a list of base-table
records; the SQL aggregate expressions of the query are modelled on it
(`SUM` of an empty set is `NULL`; `COUNT` never is; `NULLIF(x, 0)` turns
`0` into `NULL`; `* 1.0 /` is exact division into a decimal). -/

/-- One row of the underlying claims table (the columns the queries
touch). -/
structure ClaimsRecord where
  fullName : String
  city : String
  state : String
  ptype : String
  brndName : String
  totClms : Int
  totBenes : Int
  totDaySuply : Int
  totDrugCst : Rat

/-- `SUM` of an integer column over a group (`NULL` on an empty group). -/
def aggSumI (f : ClaimsRecord → Int) (g : List ClaimsRecord) : Option Int :=
  match g with
  | [] => none
  | _ => some ((g.map f).sum)

/-- `SUM` of a decimal column over a group (`NULL` on an empty group). -/
def aggSumR (f : ClaimsRecord → Rat) (g : List ClaimsRecord) : Option Rat :=
  match g with
  | [] => none
  | _ => some ((g.map f).sum)

/-- `COUNT(DISTINCT col)` over a group (never `NULL`). -/
def aggCountDistinct (f : ClaimsRecord → String) (g : List ClaimsRecord) : Int :=
  ((g.map f).dedup).length

/-- `NULLIF(x, 0)` on a nullable integer. -/
def sqlNullIf (x : Option Int) : Option Int :=
  x.bind fun v => if v = 0 then none else some v

/-- `num * 1.0 / den` where `den` already went through `NULLIF`: `NULL`
when either side is `NULL`, otherwise the exact decimal quotient
(`n / d = n.num / (n.den * d)`). -/
def sqlRatio (num : Option Rat) (den : Option Int) : Option Rat :=
  match num, den with
  | some n, some d => some (Rat.divInt n.num ((n.den : Int) * d))
  | _, _ => none

/-- The `TypesRow` the prescriber-types query produces for one group `g`
of records sharing `Prscrbr_Type = t`. -/
def typesRowOfGroup (t : String) (g : List ClaimsRecord) : TypesRow where
  ptype := t
  uniquePrescribers := some (aggCountDistinct ClaimsRecord.fullName g)
  totalClaims := aggSumI ClaimsRecord.totClms g
  totalCost := aggSumR ClaimsRecord.totDrugCst g
  totalBenes := aggSumI ClaimsRecord.totBenes g
  costPerClaim :=
    sqlRatio (aggSumR ClaimsRecord.totDrugCst g) (sqlNullIf (aggSumI ClaimsRecord.totClms g))
  claimsPerPrescriber :=
    sqlRatio ((aggSumI ClaimsRecord.totClms g).map fun n => (n : Rat))
      (sqlNullIf (some (aggCountDistinct ClaimsRecord.fullName g)))
  costPerPrescriber :=
    sqlRatio (aggSumR ClaimsRecord.totDrugCst g)
      (sqlNullIf (some (aggCountDistinct ClaimsRecord.fullName g)))
  uniqueBrands := some (aggCountDistinct ClaimsRecord.brndName g)
  avgDaysPerClaim :=
    sqlRatio ((aggSumI ClaimsRecord.totDaySuply g).map fun n => (n : Rat))
      (sqlNullIf (aggSumI ClaimsRecord.totClms g))

/-! ### Tool registry (`FastMCP`) and server construction
(`initialize_mcp`) -/

/-- A registered tool: the report builders are zero- or one-argument
callables producing a report string. -/
inductive ToolFn where
  | nullary (f : Unit → String)
  | withTop (f : Int → String)

/-- The `FastMCP` registry: a name and the tools in registration order. -/
structure FastMCP where
  name : String
  tools : List (String × ToolFn)

/-- The database adapter's `execute_query`, seen through the four typed
call sites of `server.py` (each query's rows have a fixed column
layout). -/
structure DbExec where
  schemaQ : String → List String → Except String (List (String × String))
  prescriberQ : String → List Int → Except String (List PrescriberRow)
  stateQ : String → List Int → Except String (List StateRow)
  typesQ : String → Except String (List TypesRow)

/-- `initialize_mcp` from `server.py`: constructs the connection
configuration (which raises when required settings are missing) and
registers the four `@mcp.tool()` report builders under their function
names. -/
def initMcp (server database table : Option String) (db : DbExec) : Except String FastMCP :=
  match setup_connection server database table with
  | .error e => .error e
  | .ok cfg =>
    .ok
      { name := "Prescriber Analytics MCP"
        tools :=
          [("get_schema_info", ToolFn.nullary fun _ => get_schema_info db.schemaQ cfg.table),
           ("get_top_prescribers", ToolFn.withTop (get_top_prescribers db.prescriberQ cfg.table)),
           ("get_top_states", ToolFn.withTop (get_top_states db.stateQ cfg.table)),
           ("get_prescriber_types_summary",
             ToolFn.nullary fun _ => get_prescriber_types_summary db.typesQ cfg.table)] }

/-! ### HTTP boundary (`api.py`).  Each route wraps the tool invocation
in `try/except` and converts an unhandled exception into
`HTTPException(status_code=500, detail=str(e))`; the tool argument is
`Except`-valued to model that the invoked callable may raise. -/

/-- The response a route handler produces: a 200 JSON object with string
fields, or an HTTP error status with a JSON `detail` message. -/
inductive ApiResponse where
  | ok200 (body : List (String × String))
  | httpError (status : Nat) (detail : String)

/-- `GET /schema`. -/
def api_get_schema (tool : Unit → Except String String) : ApiResponse :=
  match tool () with
  | .ok s => .ok200 [("schema", s)]
  | .error e => .httpError 500 e

/-- `GET /prescriber-types`. -/
def api_get_prescriber_types (tool : Unit → Except String String) : ApiResponse :=
  match tool () with
  | .ok s => .ok200 [("data", s)]
  | .error e => .httpError 500 e

/-- `GET /top-prescribers` (query parameter `limit`, default 10). -/
def api_get_top_prescribers (tool : Int → Except String String) (limit : Int) : ApiResponse :=
  match tool limit with
  | .ok s => .ok200 [("data", s)]
  | .error e => .httpError 500 e

/-- `GET /top-states` (query parameter `limit`, default 10). -/
def api_get_top_states (tool : Int → Except String String) (limit : Int) : ApiResponse :=
  match tool limit with
  | .ok s => .ok200 [("data", s)]
  | .error e => .httpError 500 e

/-! ### Helper lemmas -/

theorem str_data_append (a b : String) : (a ++ b).data = a.data ++ b.data := rfl

theorem isPrefixB_append {pat a : List Char} (b : List Char) (h : isPrefixB pat a = true) :
    isPrefixB pat (a ++ b) = true := by
  induction pat generalizing a with
  | nil => rfl
  | cons p ps ih =>
    cases a with
    | nil => simp [isPrefixB] at h
    | cons x xs =>
      simp only [isPrefixB, Bool.and_eq_true] at h ⊢
      exact ⟨h.1, ih h.2⟩

theorem hasSubB_append_left {pat a : List Char} (b : List Char) (h : hasSubB pat a = true) :
    hasSubB pat (a ++ b) = true := by
  induction a with
  | nil =>
    have hp : pat = [] := by
      cases pat with
      | nil => rfl
      | cons p ps => simp [hasSubB, isPrefixB] at h
    subst hp
    cases b with
    | nil => rfl
    | cons x xs => simp [hasSubB, isPrefixB]
  | cons x xs ih =>
    simp only [hasSubB, Bool.or_eq_true] at h
    rcases h with h | h
    · simp only [List.cons_append, hasSubB, Bool.or_eq_true]
      exact Or.inl (isPrefixB_append b h)
    · simp only [List.cons_append, hasSubB, Bool.or_eq_true]
      exact Or.inr (ih h)

/-! ### Claims -/

/-- C1: every report builder (`get_schema_info`, `get_top_prescribers`,
`get_top_states`, `get_prescriber_types_summary`) is a total function
from its request parameters to a string (each is a Lean function into
`String`), and whenever query execution fails with a message the builder
returns the single string `"Error retrieving <report>: <failure
message>"` instead of propagating the failure. -/
theorem builders_total_catch_query_failures
    (dbS : String → List String → Except String (List (String × String)))
    (dbP : String → List Int → Except String (List PrescriberRow))
    (dbT : String → List Int → Except String (List StateRow))
    (dbY : String → Except String (List TypesRow))
    (table : String) (top : Int) (e1 e2 e3 e4 : String) :
    (dbS schemaQuery [table] = .error e1 →
      get_schema_info dbS table = "Error retrieving schema: " ++ e1) ∧
    (dbP (topPrescribersQuery table) [top] = .error e2 →
      get_top_prescribers dbP table top = "Error retrieving top prescribers: " ++ e2) ∧
    (dbT (topStatesQuery table) [top] = .error e3 →
      get_top_states dbT table top = "Error retrieving top states: " ++ e3) ∧
    (dbY (typesQuery table) = .error e4 →
      get_prescriber_types_summary dbY table =
        "Error retrieving prescriber types summary: " ++ e4) := by
  refine ⟨fun h => ?_, fun h => ?_, fun h => ?_, fun h => ?_⟩ <;>
    simp [get_schema_info, get_top_prescribers, get_top_states,
      get_prescriber_types_summary, h]

/-- Witness for C1 at concrete failing adapters. -/
theorem builders_total_catch_query_failures_witness :
    get_schema_info (fun _ _ => .error "connection refused") "PrescriberData" =
      "Error retrieving schema: connection refused" ∧
    get_top_prescribers (fun _ _ => .error "connection refused") "PrescriberData" 10 =
      "Error retrieving top prescribers: connection refused" ∧
    get_top_states (fun _ _ => .error "connection refused") "PrescriberData" 10 =
      "Error retrieving top states: connection refused" ∧
    get_prescriber_types_summary (fun _ => .error "connection refused") "PrescriberData" =
      "Error retrieving prescriber types summary: connection refused" := by
  have h := builders_total_catch_query_failures
    (fun _ _ => .error "connection refused") (fun _ _ => .error "connection refused")
    (fun _ _ => .error "connection refused") (fun _ => .error "connection refused")
    "PrescriberData" 10
    "connection refused" "connection refused" "connection refused" "connection refused"
  exact ⟨h.1 rfl, h.2.1 rfl, h.2.2.1 rfl, h.2.2.2 rfl⟩

/-- C3: for every format-spec string and every numeric default `d`,
`format_number None spec d` equals `format_number d spec d`: substituting
the default for a null value and formatting the default directly agree
(including the error behaviour on an invalid spec). -/
theorem format_number_default_roundtrip (spec : String) (d : NumVal) :
    format_number none spec d = format_number (some d) spec d := rfl

/-- C9: every report builder is deterministic: two invocations with the
same limit and table, against data sources returning the same row
sequences, produce identical output strings. -/
theorem builders_deterministic
    (dbS1 dbS2 : String → List String → Except String (List (String × String)))
    (dbP1 dbP2 : String → List Int → Except String (List PrescriberRow))
    (dbT1 dbT2 : String → List Int → Except String (List StateRow))
    (dbY1 dbY2 : String → Except String (List TypesRow))
    (table : String) (top : Int) :
    ((∀ q p, dbS1 q p = dbS2 q p) →
      get_schema_info dbS1 table = get_schema_info dbS2 table) ∧
    ((∀ q p, dbP1 q p = dbP2 q p) →
      get_top_prescribers dbP1 table top = get_top_prescribers dbP2 table top) ∧
    ((∀ q p, dbT1 q p = dbT2 q p) →
      get_top_states dbT1 table top = get_top_states dbT2 table top) ∧
    ((∀ q, dbY1 q = dbY2 q) →
      get_prescriber_types_summary dbY1 table = get_prescriber_types_summary dbY2 table) := by
  refine ⟨fun h => ?_, fun h => ?_, fun h => ?_, fun h => ?_⟩ <;>
    simp only [get_schema_info, get_top_prescribers, get_top_states,
      get_prescriber_types_summary, h]

/-- Witness for C9: two syntactically distinct but extensionally equal
adapters yield the same report. -/
theorem builders_deterministic_witness :
    get_top_prescribers (fun _ _ => .ok []) "PrescriberData" 3 =
      get_top_prescribers (fun _ p => .ok (if p = p then [] else [])) "PrescriberData" 3 :=
  (builders_deterministic (fun _ _ => .ok []) (fun _ _ => .ok [])
    (fun _ _ => .ok []) (fun _ p => .ok (if p = p then [] else []))
    (fun _ _ => .ok []) (fun _ _ => .ok []) (fun _ => .ok []) (fun _ => .ok [])
    "PrescriberData" 3).2.1 (fun q p => by simp)

/-- C8: a route handler answers 500 with the failure message when the
invoked tool raises, and 200 with the report string embedded otherwise;
composed with a report builder whose query fails, the caller still
receives a 200 whose body carries the (non-empty) error-message string,
never a silent empty result. -/
theorem routes_error_contract
    (toolN : Unit → Except String String) (toolT : Int → Except String String)
    (dbP : String → List Int → Except String (List PrescriberRow))
    (table : String) (limit : Int) (msg s : String) :
    (toolT limit = .error msg → api_get_top_prescribers toolT limit = .httpError 500 msg) ∧
    (toolT limit = .ok s → api_get_top_prescribers toolT limit = .ok200 [("data", s)]) ∧
    (toolN () = .error msg → api_get_schema toolN = .httpError 500 msg) ∧
    (toolN () = .ok s → api_get_schema toolN = .ok200 [("schema", s)]) ∧
    (dbP (topPrescribersQuery table) [limit] = .error msg →
      api_get_top_prescribers (fun l => .ok (get_top_prescribers dbP table l)) limit =
        .ok200 [("data", "Error retrieving top prescribers: " ++ msg)] ∧
      "Error retrieving top prescribers: " ++ msg ≠ "") := by
  refine ⟨fun h => ?_, fun h => ?_, fun h => ?_, fun h => ?_, fun h => ⟨?_, ?_⟩⟩
  · simp [api_get_top_prescribers, h]
  · simp [api_get_top_prescribers, h]
  · simp [api_get_schema, h]
  · simp [api_get_schema, h]
  · simp [api_get_top_prescribers, get_top_prescribers, h]
  · intro hc
    have hd := congrArg String.data hc
    simp [str_data_append] at hd

/-- Witness for C8 at concrete tools and a concrete failing adapter. -/
theorem routes_error_contract_witness :
    api_get_top_prescribers (fun _ => .error "boom") 3 = .httpError 500 "boom" ∧
    api_get_top_prescribers (fun _ => .ok "report") 3 = .ok200 [("data", "report")] ∧
    api_get_schema (fun _ => .error "boom") = .httpError 500 "boom" ∧
    api_get_schema (fun _ => .ok "report") = .ok200 [("schema", "report")] ∧
    api_get_top_prescribers
        (fun l => .ok (get_top_prescribers (fun _ _ => .error "timeout") "PrescriberData" l)) 3 =
      .ok200 [("data", "Error retrieving top prescribers: timeout")] := by
  have h := routes_error_contract (fun _ => .error "boom") (fun _ => .error "boom")
    (fun _ _ => .error "timeout") "PrescriberData" 3 "boom" "report"
  have h2 := routes_error_contract (fun _ => .ok "report") (fun _ => .ok "report")
    (fun _ _ => .error "timeout") "PrescriberData" 3 "timeout" "report"
  exact ⟨h.1 rfl, h2.2.1 rfl, h.2.2.1 rfl, h2.2.2.2.1 rfl, (h2.2.2.2.2 rfl).1⟩

/-- C6 counterexample: the claim says a missing required setting produces
a descriptive message identifying the missing setting(s); in the source,
`_setup_connection` raises the same fixed generic message `"Required
environment variables are not set"` no matter which setting is missing,
and that message names no setting. -/
theorem missing_config_generic_message_counterexample :
    setup_connection (some "sqlsrv.example.net") (some "analytics") none =
      .error "Required environment variables are not set" ∧
    setup_connection none (some "analytics") (some "PrescriberData") =
      .error "Required environment variables are not set" ∧
    hasSubB "DB_TABLE".data "Required environment variables are not set".data = false ∧
    hasSubB "DB_SERVER".data "Required environment variables are not set".data = false ∧
    hasSubB "table".data "Required environment variables are not set".data = false ∧
    hasSubB "server".data "Required environment variables are not set".data = false := by
  exact ⟨rfl, rfl, by decide, by decide, by decide, by decide⟩

/-- C6 (amended): if any of the three required settings is absent (or
empty, which Python's `all` also rejects), initialization fails fatally —
but with the fixed generic message `"Required environment variables are
not set"`, which does not identify the missing setting. -/
theorem missing_config_fails_with_generic_message
    (server database table : Option String)
    (h : (truthy server && truthy database && truthy table) = false) :
    setup_connection server database table =
      .error "Required environment variables are not set" := by
  simp [setup_connection, h]

/-- Witness for the amended C6 at a concrete configuration missing only
the table name. -/
theorem missing_config_fails_with_generic_message_witness :
    setup_connection (some "sqlsrv.example.net") (some "analytics") none =
      .error "Required environment variables are not set" :=
  missing_config_fails_with_generic_message (some "sqlsrv.example.net") (some "analytics") none
    (by decide)

/-- C5 counterexample: after initialization the registry holds exactly
four tools — schema listing, top-prescribers, top-states and
prescriber-types summary — so it does not contain a tool for each of five
report kinds; in particular no top-cities report (no registered tool
issues a query grouped by city and state) exists in this source. -/
theorem registry_has_four_tools_counterexample :
    (initMcp (some "sqlsrv.example.net") (some "analytics") (some "PrescriberData")
        ⟨fun _ _ => .ok [], fun _ _ => .ok [], fun _ _ => .ok [], fun _ => .ok []⟩).map
        (fun m => m.tools.map Prod.fst) =
      .ok ["get_schema_info", "get_top_prescribers", "get_top_states",
        "get_prescriber_types_summary"] ∧
    (initMcp (some "sqlsrv.example.net") (some "analytics") (some "PrescriberData")
        ⟨fun _ _ => .ok [], fun _ _ => .ok [], fun _ _ => .ok [], fun _ => .ok []⟩).map
        (fun m => m.tools.length) = .ok 4 :=
  ⟨rfl, rfl⟩

/-- C5 (amended): the report catalog of this source comprises four kinds
— schema listing, top-prescribers ranking, top-states ranking and
prescriber-type summary (no top-cities report) — and after successful
initialization the registry contains exactly one tool for each of these
four, in registration order. -/
theorem registry_contains_the_four_tools
    (server database table : Option String) (db : DbExec)
    (h : (truthy server && truthy database && truthy table) = true) :
    (initMcp server database table db).map (fun m => m.tools.map Prod.fst) =
      .ok ["get_schema_info", "get_top_prescribers", "get_top_states",
        "get_prescriber_types_summary"] := by
  simp [initMcp, setup_connection, h, Except.map]

/-- Witness for the amended C5 at a concrete complete configuration. -/
theorem registry_contains_the_four_tools_witness :
    (initMcp (some "sqlsrv.example.net") (some "analytics") (some "PrescriberData")
        ⟨fun _ _ => .ok [], fun _ _ => .ok [], fun _ _ => .ok [], fun _ => .ok []⟩).map
        (fun m => m.tools.map Prod.fst) =
      .ok ["get_schema_info", "get_top_prescribers", "get_top_states",
        "get_prescriber_types_summary"] :=
  registry_contains_the_four_tools (some "sqlsrv.example.net") (some "analytics")
    (some "PrescriberData")
    ⟨fun _ _ => .ok [], fun _ _ => .ok [], fun _ _ => .ok [], fun _ => .ok []⟩ (by decide)

theorem sqlRatio_den_none (num : Option Rat) : sqlRatio num none = none := by
  cases num <;> rfl

theorem sqlNullIf_sum_totClms (g : List ClaimsRecord)
    (h : (g.map ClaimsRecord.totClms).sum = 0) :
    sqlNullIf (aggSumI ClaimsRecord.totClms g) = none := by
  cases g with
  | nil => rfl
  | cons a l =>
    simp only [List.map_cons, List.sum_cons] at h
    simp [aggSumI, sqlNullIf, h]

set_option maxRecDepth 100000 in
/-- C4 counterexample: the claim says some limit value is embedded in the
query text and absent from the parameter sequence.  In this source the
opposite holds: the negation of the claim's existential is provable
(the parameter sequence handed over is always `[top]`, so it always
carries the limit), and a spy adapter invoked by the builders at limit 3
observes a query text that does not contain `"3"` together with a
parameter sequence equal to `[3]`. -/
theorem limit_is_bound_not_interpolated_counterexample :
    (¬ ∃ t : Int,
      (hasSubB (pyStr t).data (topPrescribersQuery "PrescriberData").data = true ∨
        hasSubB (pyStr t).data (topStatesQuery "PrescriberData").data = true) ∧
      t ∉ ([t] : List Int)) ∧
    get_top_prescribers
        (fun q p => .error
          ((if hasSubB (pyStr 3).data q.data then "limit-in-query" else "limit-not-in-query") ++
            ";" ++ (if p = [3] then "params-carry-limit" else "params-missing-limit")))
        "PrescriberData" 3 =
      "Error retrieving top prescribers: limit-not-in-query;params-carry-limit" ∧
    get_top_states
        (fun q p => .error
          ((if hasSubB (pyStr 3).data q.data then "limit-in-query" else "limit-not-in-query") ++
            ";" ++ (if p = [3] then "params-carry-limit" else "params-missing-limit")))
        "PrescriberData" 3 =
      "Error retrieving top states: limit-not-in-query;params-carry-limit" := by
  refine ⟨?_, by decide, by decide⟩
  rintro ⟨t, -, hmem⟩
  exact hmem (List.mem_singleton.mpr rfl)

set_option maxRecDepth 100000 in
/-- C4 (amended): in the ranking report builders the table name — not the
limit — is interpolated into the query text: the query handed to
`execute_query` contains the bound-parameter placeholder `TOP (?)` for
every table name, and the parameter sequence handed alongside it is
exactly `[top]` (observed through an arbitrary spy adapter). -/
theorem limit_is_bound_not_interpolated
    (t : Int) (table : String) (f g : String → List Int → String) :
    get_top_prescribers (fun q p => .error (f q p)) table t =
      "Error retrieving top prescribers: " ++ f (topPrescribersQuery table) [t] ∧
    get_top_states (fun q p => .error (g q p)) table t =
      "Error retrieving top states: " ++ g (topStatesQuery table) [t] ∧
    hasSubB "TOP (?)".data (topPrescribersQuery table).data = true ∧
    hasSubB "TOP (?)".data (topStatesQuery table).data = true := by
  refine ⟨rfl, rfl, ?_, ?_⟩
  · unfold topPrescribersQuery
    rw [str_data_append, str_data_append, List.append_assoc]
    apply hasSubB_append_left
    decide
  · unfold topStatesQuery
    rw [str_data_append, str_data_append, List.append_assoc]
    apply hasSubB_append_left
    decide

/-- C2: in the prescriber-types query a `NULLIF`-guarded ratio whose
denominator aggregate is 0 comes back `NULL` from the query layer (total
claims 0 nulls cost-per-claim and avg-days-per-claim; zero distinct
prescribers nulls claims-per-prescriber and cost-per-prescriber), and the
renderer's `format_number(..., default=0)` then formats the default 0 —
`$0.00` for cost per claim — never a division error and never
infinity/NaN text. -/
theorem zero_denominator_yields_null_and_default
    (t : String) (g : List ClaimsRecord) :
    ((g.map ClaimsRecord.totClms).sum = 0 →
      (typesRowOfGroup t g).costPerClaim = none ∧
      (typesRowOfGroup t g).avgDaysPerClaim = none ∧
      fmtN ((typesRowOfGroup t g).costPerClaim.map NumVal.dec) fsF2 (.int 0) = "0.00" ∧
      fmtN ((typesRowOfGroup t g).avgDaysPerClaim.map NumVal.dec) fsF1 (.int 0) = "0.0") ∧
    (aggCountDistinct ClaimsRecord.fullName g = 0 →
      (typesRowOfGroup t g).claimsPerPrescriber = none ∧
      (typesRowOfGroup t g).costPerPrescriber = none ∧
      fmtN ((typesRowOfGroup t g).claimsPerPrescriber.map NumVal.dec) fsF1 (.int 0) = "0.0" ∧
      fmtN ((typesRowOfGroup t g).costPerPrescriber.map NumVal.dec) fsCommaF2 (.int 0) =
        "0.00") := by
  constructor
  · intro h
    have hden := sqlNullIf_sum_totClms g h
    have hc : (typesRowOfGroup t g).costPerClaim = none := by
      simp only [typesRowOfGroup]
      rw [hden]
      exact sqlRatio_den_none _
    have ha : (typesRowOfGroup t g).avgDaysPerClaim = none := by
      simp only [typesRowOfGroup]
      rw [hden]
      exact sqlRatio_den_none _
    refine ⟨hc, ha, ?_, ?_⟩
    · rw [hc]; rfl
    · rw [ha]; rfl
  · intro h
    have hden : sqlNullIf (some (aggCountDistinct ClaimsRecord.fullName g)) = none := by
      rw [h]; rfl
    have hc : (typesRowOfGroup t g).claimsPerPrescriber = none := by
      simp only [typesRowOfGroup]
      rw [hden]
      exact sqlRatio_den_none _
    have hp : (typesRowOfGroup t g).costPerPrescriber = none := by
      simp only [typesRowOfGroup]
      rw [hden]
      exact sqlRatio_den_none _
    refine ⟨hc, hp, ?_, ?_⟩
    · rw [hc]; rfl
    · rw [hp]; rfl

/-- Witness for C2 on a concrete group whose claims sum and distinct
prescriber count are both 0. -/
theorem zero_denominator_yields_null_and_default_witness :
    (typesRowOfGroup "Internal Medicine" []).costPerClaim = none ∧
    fmtN ((typesRowOfGroup "Internal Medicine" []).costPerClaim.map NumVal.dec) fsF2 (.int 0) =
      "0.00" ∧
    (typesRowOfGroup "Internal Medicine" []).claimsPerPrescriber = none ∧
    fmtN ((typesRowOfGroup "Internal Medicine" []).claimsPerPrescriber.map NumVal.dec) fsF1
      (.int 0) = "0.0" := by
  have h := zero_denominator_yields_null_and_default "Internal Medicine" []
  have h1 := h.1 (by decide)
  have h2 := h.2 (by decide)
  exact ⟨h1.1, h1.2.2.1, h2.1, h2.2.2.1⟩

/-! ### Lemmas about the token packing -/

theorem tdsBytes_length (l : List Nat) : (tdsBytes l).length = 2 * l.length := by
  induction l with
  | nil => rfl
  | cons i rest ih => simp [tdsBytes, ih]; omega

theorem tdsBytes_get (l : List Nat) (j : Nat) :
    (tdsBytes l).get? (2 * j) = l.get? j ∧
    (tdsBytes l).get? (2 * j + 1) = (l.get? j).map fun _ => 0 := by
  induction l generalizing j with
  | nil => simp [tdsBytes]
  | cons i rest ih =>
    cases j with
    | zero => simp [tdsBytes]
    | succ j =>
      have h2 : 2 * (j + 1) = 2 * j + 1 + 1 := by omega
      simp only [tdsBytes, h2, List.get?_cons_succ]
      exact ih j

theorem utf8Bytes_replicate_a (k : Nat) :
    utf8Bytes (List.replicate k 'a') = List.replicate k 97 := by
  induction k with
  | zero => rfl
  | succ k ih => simp only [List.replicate_succ, utf8Bytes, ih]; rfl

theorem decodeI32_le4 (v : Nat) (h : v < 2147483648) : decodeI32 (le4 v) = (v : Int) := by
  have hu : decodeU32 (le4 v) = v := by
    simp only [le4, decodeU32]
    omega
  simp only [decodeI32, hu]
  rw [if_pos h]

/-- C10 (amended): for every token whose doubled UTF-8 byte count fits in
a signed 32-bit integer, `_pack_token` returns the 4-byte native-order
(little-endian) signed prefix decoding to `2 * |utf8(token)|`, followed by
exactly the UTF-8 bytes each immediately followed by one zero byte, for a
total length of `4 + 2 * |utf8(token)|`.  (The size bound is forced:
`struct.pack("=i", ...)` raises beyond it, see the counterexample.) -/
theorem pack_token_encodes (token : String)
    (h : 2 * (utf8Bytes token.data).length < 2147483648) :
    pack_token token =
      .ok (le4 (2 * (utf8Bytes token.data).length) ++ tdsBytes (utf8Bytes token.data)) ∧
    (le4 (2 * (utf8Bytes token.data).length) ++ tdsBytes (utf8Bytes token.data)).length =
      4 + 2 * (utf8Bytes token.data).length ∧
    decodeI32 (le4 (2 * (utf8Bytes token.data).length)) =
      (2 * (utf8Bytes token.data).length : Nat) ∧
    (∀ j, (tdsBytes (utf8Bytes token.data)).get? (2 * j) = (utf8Bytes token.data).get? j ∧
      (tdsBytes (utf8Bytes token.data)).get? (2 * j + 1) =
        ((utf8Bytes token.data).get? j).map fun _ => 0) := by
  refine ⟨?_, ?_, decodeI32_le4 _ h, fun j => tdsBytes_get _ j⟩
  · have hcond : (-2147483648 : Int) ≤ ((tdsBytes (utf8Bytes token.data)).length : Int) ∧
        ((tdsBytes (utf8Bytes token.data)).length : Int) ≤ 2147483647 := by
      rw [tdsBytes_length]
      omega
    have hmod : ((((tdsBytes (utf8Bytes token.data)).length : Int)) % 4294967296).toNat =
        2 * (utf8Bytes token.data).length := by
      rw [tdsBytes_length]
      omega
    simp only [pack_token, structPackEqI, if_pos hcond, Except.map, hmod]
  · simp [le4, tdsBytes_length]
    omega

/-- Witness for the amended C10 at the concrete token `"abc"`. -/
theorem pack_token_encodes_witness :
    pack_token "abc" =
      .ok (le4 (2 * (utf8Bytes "abc".data).length) ++ tdsBytes (utf8Bytes "abc".data)) :=
  (pack_token_encodes "abc" (by decide)).1

theorem pack_token_overflow (token : String)
    (h : 2147483648 ≤ 2 * (utf8Bytes token.data).length) :
    pack_token token = .error "argument out of range" := by
  have hcond : ¬ ((-2147483648 : Int) ≤ ((tdsBytes (utf8Bytes token.data)).length : Int) ∧
      ((tdsBytes (utf8Bytes token.data)).length : Int) ≤ 2147483647) := by
    rw [tdsBytes_length]
    omega
  simp only [pack_token, structPackEqI, if_neg hcond, Except.map]

/-- C10 counterexample: the claim quantifies over every token string, but
for a token of `2^30` UTF-8 bytes the length prefix `2 * 2^30 = 2^31`
overflows the signed 32-bit `struct.pack("=i", ...)`, which raises
`struct.error` instead of returning the prefixed byte string. -/
theorem pack_token_counterexample :
    pack_token (String.mk (List.replicate 1073741824 'a')) = .error "argument out of range" := by
  apply pack_token_overflow
  have hd : (String.mk (List.replicate 1073741824 'a')).data =
      List.replicate 1073741824 'a' := rfl
  rw [hd, utf8Bytes_replicate_a, List.length_replicate]

/-! ### Newline-freedom of the numeric formatter -/

theorem data_mk (l : List Char) : (String.mk l).data = l := rfl

theorem digitChar_ne_nl (d : Nat) : digitChar d ≠ '\n' := by
  unfold digitChar; split <;> decide

theorem natDigitsAux_ne_nl (fuel n : Nat) : '\n' ∉ natDigitsAux fuel n := by
  induction fuel generalizing n with
  | zero => simp [natDigitsAux]
  | succ fuel ih =>
    unfold natDigitsAux
    split
    · simp only [List.mem_singleton]
      exact fun hh => digitChar_ne_nl n hh.symm
    · simp only [List.mem_append, List.mem_singleton, not_or]
      exact ⟨ih _, fun hh => digitChar_ne_nl _ hh.symm⟩

theorem natDigits_ne_nl (n : Nat) : '\n' ∉ natDigits n := natDigitsAux_ne_nl _ _

theorem pyStr_ne_nl (i : Int) : '\n' ∉ (pyStr i).data := by
  unfold pyStr natRepr
  simp only [str_data_append, List.mem_append, not_or, data_mk]
  exact ⟨by split <;> decide, natDigits_ne_nl _⟩

theorem revGroupAux_mem (k : Nat) (l : List Char) (c : Char) (h : c ∈ revGroupAux k l) :
    c = ',' ∨ c ∈ l := by
  induction l generalizing k with
  | nil => simp [revGroupAux] at h
  | cons x xs ih =>
    cases k with
    | zero =>
      simp only [revGroupAux, List.mem_cons] at h
      rcases h with h | h | h
      · exact Or.inl h
      · exact Or.inr (by simp [h])
      · rcases ih 2 h with h' | h'
        · exact Or.inl h'
        · exact Or.inr (List.mem_cons_of_mem _ h')
    | succ k =>
      simp only [revGroupAux, List.mem_cons] at h
      rcases h with h | h
      · exact Or.inr (by simp [h])
      · rcases ih k h with h' | h'
        · exact Or.inl h'
        · exact Or.inr (List.mem_cons_of_mem _ h')

theorem groupDigits_ne_nl (ds : List Char) (h : '\n' ∉ ds) : '\n' ∉ groupDigits ds := by
  intro hm
  rw [groupDigits, List.mem_reverse] at hm
  rcases revGroupAux_mem 3 ds.reverse '\n' hm with h' | h'
  · exact absurd h' (by decide)
  · exact h (List.mem_reverse.mp h')

theorem padZeros_ne_nl (p : Nat) (ds : List Char) (h : '\n' ∉ ds) : '\n' ∉ padZeros p ds := by
  unfold padZeros
  simp only [List.mem_append, not_or]
  exact ⟨fun hm => by simpa using (List.eq_of_mem_replicate hm), h⟩

theorem formatFixed_ne_nl (q : Rat) (prec : Nat) (comma : Bool) :
    '\n' ∉ (formatFixed q prec comma).data := by
  unfold formatFixed
  simp only [str_data_append, List.mem_append, not_or, data_mk]
  refine ⟨⟨?_, ?_⟩, ?_⟩
  · split <;> decide
  · split
    · exact groupDigits_ne_nl _ (natDigits_ne_nl _)
    · exact natDigits_ne_nl _
  · split
    · decide
    · simp only [str_data_append, List.mem_append, not_or, data_mk]
      exact ⟨by decide, padZeros_ne_nl _ _ (natDigits_ne_nl _)⟩

theorem intFmt_ne_nl (n : Int) (comma : Bool) : '\n' ∉ (intFmt n comma).data := by
  unfold intFmt natRepr
  simp only [str_data_append, List.mem_append, not_or, data_mk]
  constructor
  · split <;> decide
  · split
    · exact groupDigits_ne_nl _ (natDigits_ne_nl _)
    · exact natDigits_ne_nl _

theorem fmtValue_ne_nl (v : NumVal) (fs : FSpec) : '\n' ∉ (fmtValue v fs).data := by
  unfold fmtValue
  split
  · exact formatFixed_ne_nl _ _ _
  · split
    · exact intFmt_ne_nl _ _
    · exact formatFixed_ne_nl _ _ _
    · exact formatFixed_ne_nl _ _ _
    · exact formatFixed_ne_nl _ _ _

theorem fmtN_ne_nl (value : Option NumVal) (fs : FSpec) (d : NumVal) :
    '\n' ∉ (fmtN value fs d).data := fmtValue_ne_nl _ _

/-! ### Line structure of the prescriber report -/

theorem renderPrescriberRow_ne_nl (r : PrescriberRow)
    (h1 : '\n' ∉ r.fullName.data) (h2 : '\n' ∉ r.city.data)
    (h3 : '\n' ∉ r.state.data) (h4 : '\n' ∉ r.ptype.data) :
    '\n' ∉ (renderPrescriberRow r).data := by
  have l1 : '\n' ∉ (" (" : String).data := by decide
  have l2 : '\n' ∉ (") - " : String).data := by decide
  have l3 : '\n' ∉ (", " : String).data := by decide
  have l4 : '\n' ∉ (" - " : String).data := by decide
  have l5 : '\n' ∉ (" claims, $" : String).data := by decide
  have l6 : '\n' ∉ (" total cost, " : String).data := by decide
  have l7 : '\n' ∉ (" unique brands" : String).data := by decide
  unfold renderPrescriberRow
  simp only [str_data_append, List.mem_append, not_or]
  exact ⟨⟨⟨⟨⟨⟨⟨⟨⟨⟨⟨⟨⟨h1, l1⟩, h4⟩, l2⟩, h2⟩, l3⟩, h3⟩, l4⟩,
    fmtValue_ne_nl _ _⟩, l5⟩, fmtValue_ne_nl _ _⟩, l6⟩, pyStr_ne_nl _⟩, l7⟩

theorem renderPrescriberRow_getLast (r : PrescriberRow) :
    (renderPrescriberRow r).data.getLast? = some 's' := by
  unfold renderPrescriberRow
  rw [str_data_append,
    List.getLast?_append_of_ne_nil _ (by decide : (" unique brands" : String).data ≠ [])]
  decide

theorem joinNl_count_nl (l : List String) (h : ∀ s ∈ l, '\n' ∉ s.data) :
    (joinNl l).data.count '\n' = l.length - 1 := by
  induction l with
  | nil => simp [joinNl]
  | cons s rest ih =>
    cases rest with
    | nil =>
      have hs := List.count_eq_zero_of_not_mem (h s (by simp))
      simp [joinNl, hs]
    | cons r rest2 =>
      have hs := List.count_eq_zero_of_not_mem (h s (by simp))
      have ihh := ih fun x hx => h x (List.mem_cons_of_mem _ hx)
      simp only [joinNl, str_data_append, List.count_append, hs, ihh]
      simp only [List.length_cons]
      have : (("\n" : String).data).count '\n' = 1 := by decide
      rw [this]
      omega

theorem joinNl_getLast (l : List String) (hne : l ≠ [])
    (h : ∀ s ∈ l, s.data.getLast? = some 's') :
    (joinNl l).data.getLast? = some 's' := by
  induction l with
  | nil => exact absurd rfl hne
  | cons s rest ih =>
    cases rest with
    | nil => simpa [joinNl] using h s (by simp)
    | cons r rest2 =>
      have hJ := ih (by simp) fun x hx => h x (List.mem_cons_of_mem _ hx)
      have hJne : (joinNl (r :: rest2)).data ≠ [] := by
        intro he
        rw [he] at hJ
        simp at hJ
      simp only [joinNl, str_data_append]
      rw [List.getLast?_append_of_ne_nil _ hJne]
      exact hJ

theorem pyNumLines_topPrescribersReport (top : Int) (rows : List PrescriberRow)
    (h : ∀ r ∈ rows, '\n' ∉ r.fullName.data ∧ '\n' ∉ r.city.data ∧
      '\n' ∉ r.state.data ∧ '\n' ∉ r.ptype.data) :
    pyNumLines (topPrescribersReport top rows) = 1 + rows.length := by
  have hlines1 : ∀ s ∈ rows.map renderPrescriberRow, '\n' ∉ s.data := by
    intro s hs
    rcases List.mem_map.mp hs with ⟨r, hr, rfl⟩
    rcases h r hr with ⟨a, b, c, d⟩
    exact renderPrescriberRow_ne_nl r a b c d
  have hlines2 : ∀ s ∈ rows.map renderPrescriberRow, s.data.getLast? = some 's' := by
    intro s hs
    rcases List.mem_map.mp hs with ⟨r, hr, rfl⟩
    exact renderPrescriberRow_getLast r
  have hsplit : (" prescribers by total claims:\n" : String).data =
      (" prescribers by total claims:" : String).data ++ ['\n'] := by decide
  have hdata : (topPrescribersReport top rows).data =
      ("Returning top ".data ++ (pyStr top).data ++ " prescribers by total claims:".data) ++
        '\n' :: (joinNl (rows.map renderPrescriberRow)).data := by
    simp only [topPrescribersReport, str_data_append, hsplit, List.append_assoc,
      List.cons_append, List.nil_append, List.singleton_append]
  have hH : '\n' ∉
      ("Returning top ".data ++ (pyStr top).data ++ " prescribers by total claims:".data) := by
    simp only [List.mem_append, not_or]
    exact ⟨⟨by decide, pyStr_ne_nl top⟩, by decide⟩
  have hHcount :
      ("Returning top ".data ++ (pyStr top).data ++
        " prescribers by total claims:".data).count '\n' = 0 :=
    List.count_eq_zero_of_not_mem hH
  cases rows with
  | nil =>
    have hlast : (topPrescribersReport top []).data.getLast? = some '\n' := by
      rw [hdata]
      exact List.getLast?_append_of_ne_nil _ (by simp [joinNl])
    unfold pyNumLines countNL
    rw [if_pos hlast, hdata, List.count_append, hHcount]
    decide
  | cons r0 rest =>
    have hJ := joinNl_getLast ((r0 :: rest).map renderPrescriberRow) (by simp) hlines2
    have hJne : (joinNl ((r0 :: rest).map renderPrescriberRow)).data ≠ [] := by
      intro he
      rw [he] at hJ
      simp at hJ
    have hlast : (topPrescribersReport top (r0 :: rest)).data.getLast? = some 's' := by
      rw [hdata, List.getLast?_append_of_ne_nil _ (by simp), ← List.singleton_append,
        List.getLast?_append_of_ne_nil _ hJne]
      exact hJ
    have hcount := joinNl_count_nl ((r0 :: rest).map renderPrescriberRow) hlines1
    unfold pyNumLines countNL
    rw [if_neg (by rw [hlast]; decide), if_neg (by rw [hdata]; simp), hdata,
      List.count_append, hHcount, List.count_cons_self, hcount]
    simp only [List.length_map, List.length_cons]
    omega

set_option maxRecDepth 100000 in
/-- C7 counterexample: the claim quantifies over every row sequence, but
a row whose name field itself contains a newline renders to more than one
body line: with one such row the output of `get_top_prescribers` has 3
lines, not `1 + 1`. -/
theorem top_prescribers_line_count_counterexample :
    pyNumLines (get_top_prescribers
        (fun _ _ => .ok [⟨"DR A\nDR B", "Springfield", "IL", "MD", 10, mkRat 5 1, 2⟩])
        "PrescriberData" 3) = 3 ∧
    ([⟨"DR A\nDR B", "Springfield", "IL", "MD", 10, mkRat 5 1, 2⟩] :
      List PrescriberRow).length = 1 := by
  exact ⟨by decide, rfl⟩

/-- C7 (amended): whenever the query returns a row sequence whose string
fields contain no newline characters, `get_top_prescribers` produces
exactly one header line plus one body line per row — with 3 rows the body
is 3 lines, with fewer rows fewer lines, and with zero rows the output is
exactly the header line. -/
theorem top_prescribers_line_count
    (dbq : String → List Int → Except String (List PrescriberRow))
    (table : String) (top : Int) (rows : List PrescriberRow)
    (hok : dbq (topPrescribersQuery table) [top] = .ok rows)
    (h : ∀ r ∈ rows, '\n' ∉ r.fullName.data ∧ '\n' ∉ r.city.data ∧
      '\n' ∉ r.state.data ∧ '\n' ∉ r.ptype.data) :
    pyNumLines (get_top_prescribers dbq table top) = 1 + rows.length := by
  unfold get_top_prescribers
  rw [hok]
  exact pyNumLines_topPrescribersReport top rows h

set_option maxRecDepth 100000 in
/-- Witness for the amended C7: three newline-free rows give a header
line plus exactly three body lines. -/
theorem top_prescribers_line_count_witness :
    pyNumLines (get_top_prescribers
        (fun _ _ => .ok
          [⟨"JOHN SMITH", "Springfield", "IL", "MD", 120, mkRat 99950 100, 7⟩,
           ⟨"JANE DOE", "Columbus", "OH", "DO", 90, mkRat 5000 1, 3⟩,
           ⟨"ALEX JONES", "Austin", "TX", "NP", 75, mkRat 123456 100, 2⟩])
        "PrescriberData" 3) = 1 + 3 :=
  top_prescribers_line_count
    (fun _ _ => .ok
      [⟨"JOHN SMITH", "Springfield", "IL", "MD", 120, mkRat 99950 100, 7⟩,
       ⟨"JANE DOE", "Columbus", "OH", "DO", 90, mkRat 5000 1, 3⟩,
       ⟨"ALEX JONES", "Austin", "TX", "NP", 75, mkRat 123456 100, 2⟩])
    "PrescriberData" 3
    [⟨"JOHN SMITH", "Springfield", "IL", "MD", 120, mkRat 99950 100, 7⟩,
     ⟨"JANE DOE", "Columbus", "OH", "DO", 90, mkRat 5000 1, 3⟩,
     ⟨"ALEX JONES", "Austin", "TX", "NP", 75, mkRat 123456 100, 2⟩]
    rfl (by decide)
